import Mathlib

/-!
Shallow embedding of the ethicist-mcp server (src/ethicist_mcp/server.py) and
proofs about its dispatch-and-fallback layer.

Conventions of the embedding:
* Python strings are Lean `String`s; Python `str.strip`, `str.title`,
  `str.startswith`, `"/".split` and `str.replace('_', ' ')` are modelled by
  executable Lean functions over `String.data`.
* `os.getenv("OPENAI_API_KEY")` is a parameter `apiKey : Option String` passed
  to each gateway call (the environment at the moment of the call).
* The module-level mutable `_openai_client` singleton is explicit state
  (`GatewayState`); client identities are `Nat`s allocated by a counter so that
  "the same client instance" is expressible.
* The outcome of the external chat-completions call is an oracle
  (`UpstreamBehavior`): it either raises an exception with a message or returns
  an optional message content (None / empty handled as in the source).
* `json.dumps(x, indent=2)` is modelled by `json_dumps` over a `Json` tree.
-/

/-- JSON values as stored in the server's knowledge tables (only strings,
arrays and objects occur there). -/
inductive Json where
  | str : String → Json
  | arr : List Json → Json
  | obj : List (String × Json) → Json

/-- Escape of one character inside a JSON string literal, as `json.dumps`
performs it for the characters occurring in this code base. -/
def jsonEscapeChar (c : Char) : List Char :=
  if c = '"' then ['\\', '"']
  else if c = '\\' then ['\\', '\\']
  else if c = '\n' then ['\\', 'n']
  else if c = '\t' then ['\\', 't']
  else if c = '\r' then ['\\', 'r']
  else [c]

/-- A JSON string literal: quote and escape. -/
def jsonQuote (s : String) : String :=
  "\"" ++ String.mk (s.data.map jsonEscapeChar).flatten ++ "\""

/-- Indentation prefix used by `json.dumps(x, indent=2)` at nesting level `lvl`. -/
def indentStr (lvl : Nat) : String :=
  String.mk (List.replicate (2 * lvl) ' ')

mutual

/-- Serialization of one JSON value at nesting level `lvl`, following the
layout of Python `json.dumps(x, indent=2)`. -/
def dumpsVal : Json → Nat → String
  | .str s, _ => jsonQuote s
  | .arr [], _ => "[]"
  | .arr (x :: xs), lvl =>
      "[\n" ++ indentStr (lvl + 1) ++ dumpsVal x (lvl + 1) ++
        dumpsArrRest xs (lvl + 1) ++ "\n" ++ indentStr lvl ++ "]"
  | .obj [], _ => "\x7b\x7d"
  | .obj ((k, v) :: kvs), lvl =>
      "\x7b\n" ++ indentStr (lvl + 1) ++ jsonQuote k ++ ": " ++ dumpsVal v (lvl + 1) ++
        dumpsObjRest kvs (lvl + 1) ++ "\n" ++ indentStr lvl ++ "\x7d"

/-- Remaining array elements, each preceded by a comma, newline and indent. -/
def dumpsArrRest : List Json → Nat → String
  | [], _ => ""
  | x :: xs, lvl => ",\n" ++ indentStr lvl ++ dumpsVal x lvl ++ dumpsArrRest xs lvl

/-- Remaining object entries, each preceded by a comma, newline and indent. -/
def dumpsObjRest : List (String × Json) → Nat → String
  | [], _ => ""
  | (k, v) :: kvs, lvl =>
      ",\n" ++ indentStr lvl ++ jsonQuote k ++ ": " ++ dumpsVal v lvl ++ dumpsObjRest kvs lvl

end

/-- Models `json.dumps(x, indent=2)`. -/
def json_dumps (j : Json) : String := dumpsVal j 0

/-- Models Python `str.strip()` for the ASCII whitespace occurring here. -/
def pyStrip (s : String) : String :=
  String.mk (((s.data.dropWhile Char.isWhitespace).reverse.dropWhile Char.isWhitespace).reverse)

/-- One step of Python `str.title()`: an alphabetic character is uppercased
when the previous character was not alphabetic and lowercased otherwise. -/
def pyTitleGo : Bool → List Char → List Char
  | _, [] => []
  | prevAlpha, c :: cs =>
      (if c.isAlpha then (if prevAlpha then c.toLower else c.toUpper) else c) ::
        pyTitleGo c.isAlpha cs

/-- Models Python `str.title()`. -/
def pyTitle (s : String) : String := String.mk (pyTitleGo false s.data)

/-- Models Python `str.replace('_', ' ')` (single-character pattern). -/
def underscoresToSpaces (s : String) : String :=
  String.mk (s.data.map (fun c => if c = '_' then ' ' else c))

/-- Models Python `str.startswith`. -/
def pyStartsWith (s p : String) : Bool := p.data.isPrefixOf s.data

/-- Characters after the last `/` of the accumulated input;
helper for `lastSegment`. -/
def lastSegAux : List Char → List Char → List Char
  | [], acc => acc.reverse
  | c :: cs, acc => if c = '/' then lastSegAux cs [] else lastSegAux cs (c :: acc)

/-- Models Python `uri_str.split("/")[-1]`. -/
def lastSegment (s : String) : String := String.mk (lastSegAux s.data [])

/-- Fallback text returned when no API key is configured (tier 1). -/
def openai_key_missing_text (subject : String) : String :=
  "Warning: OpenAI API key not configured (set `OPENAI_API_KEY`).\n\n" ++
    "Requested content could not be generated automatically:\n" ++ subject ++
    "\n\nProvide a valid API key to enable AI-generated analyses."

/-- Fallback text returned when the completions call raises (tier 2). -/
def openai_error_text (subject exc : String) : String :=
  "Warning: Encountered an error while contacting OpenAI.\n\nSubject: " ++ subject ++
    "\nError: " ++ exc ++ "\n\nPlease retry later or review API credentials."

/-- Fallback text returned when the completion is empty or whitespace (tier 3). -/
def openai_empty_text (subject : String) : String :=
  "Warning: OpenAI returned an empty response.\n\nSubject: " ++ subject ++
    "\n\nConsider reissuing the request or adjusting the input context."

/-- The module-level mutable gateway state: the cached `_openai_client`
(identified by a `Nat`) and the allocator for fresh client identities. -/
structure GatewayState where
  openaiClient : Option Nat
  nextId : Nat
deriving DecidableEq

/-- Python truthiness test `not api_key` on the result of `os.getenv`. -/
def keyFalsy : Option String → Bool
  | none => true
  | some s => s == ""

/-- Embedding of `_get_openai_client`: read the key from the environment on
every call; if falsy return `None`; otherwise create the singleton client if
it does not exist yet and return it. -/
def get_openai_client (apiKey : Option String) (st : GatewayState) :
    Option Nat × GatewayState :=
  if keyFalsy apiKey then (none, st)
  else
    match st.openaiClient with
    | some c => (some c, st)
    | none => (some st.nextId, ⟨some st.nextId, st.nextId + 1⟩)

/-- Oracle for the outcome of the external chat-completions request: either the
transport raises an exception (with message `exc`) or it returns a message
whose content is an optional string (`none` covers a missing message or a
`None` content). -/
inductive UpstreamBehavior where
  | raises : String → UpstreamBehavior
  | returns : Option String → UpstreamBehavior

/-- `content.strip() if content else ""` applied to the optional message
content of the upstream response. -/
def cleanedOf : Option String → String
  | none => ""
  | some c => if c = "" then "" else pyStrip c

/-- Embedding of `_generate_openai_response`: three-tier fallback around the
completions call. The state is threaded through the client lookup. -/
def generate_openai_response (apiKey : Option String) (subject : String)
    (behavior : UpstreamBehavior) (st : GatewayState) : String × GatewayState :=
  match get_openai_client apiKey st with
  | (none, st1) => (openai_key_missing_text subject, st1)
  | (some _, st1) =>
      match behavior with
      | .raises exc => (openai_error_text subject exc, st1)
      | .returns content =>
          let cleaned := cleanedOf content
          if cleaned = "" then (openai_empty_text subject, st1) else (cleaned, st1)

/-- One entry of the `ETHICAL_FRAMEWORKS` table. -/
structure Framework where
  name : String
  description : String
  key_principles : List String
deriving DecidableEq

/-- The `ETHICAL_FRAMEWORKS` table (insertion order preserved). -/
def ETHICAL_FRAMEWORKS : List (String × Framework) := [
  ("utilitarian",
    { name := "Utilitarian Ethics",
      description := "Focuses on maximising overall happiness and well-being",
      key_principles := [
        "Greatest good for the greatest number",
        "Consequences matter most",
        "Impartial consideration of all affected parties"] }),
  ("deontological",
    { name := "Deontological Ethics",
      description := "Emphasizes duties, rules, and moral obligations",
      key_principles := [
        "Act according to universal moral laws",
        "Respect human dignity and autonomy",
        "Intentions matter more than consequences"] }),
  ("virtue",
    { name := "Virtue Ethics",
      description := "Focuses on character development and moral virtues",
      key_principles := [
        "Cultivate good character traits",
        "Act as a virtuous person would",
        "Balance and moderation in all things"] }),
  ("social_contract",
    { name := "Social Contract Theory",
      description := "Centers on fairness and mutual justification grounded in Rawlsian contractualism and Scanlonian contractarianism",
      key_principles := [
        "Select principles that would be chosen under fair conditions, such as Rawls\x27s veil of ignorance",
        "Ensure decisions can be justified to every affected party, following Scanlon\x27s notion of reasonable rejection",
        "Promote equitable institutions and uphold agreed-upon obligations"] })]

/-- The `AI_ETHICS_GUIDELINES` table (insertion order preserved). -/
def AI_ETHICS_GUIDELINES : List (String × String) := [
  ("fairness", "Ensure AI systems treat all individuals and groups equitably without bias"),
  ("transparency", "Make AI decision-making processes understandable and explainable"),
  ("accountability", "Establish clear responsibility for AI system outcomes"),
  ("privacy", "Protect individual data and respect privacy rights"),
  ("safety", "Ensure AI systems are secure, reliable, and do not cause harm"),
  ("human_autonomy", "Preserve human agency and decision-making authority"),
  ("beneficence", "Design AI to benefit humanity and individual well-being"),
  ("sustainability", "Consider long-term environmental and social impacts")]

/-- The `RESPONSIBLE_AI_FRAMEWORKS` table (insertion order preserved; Python
adjacent string literals are concatenated as in the source). -/
def RESPONSIBLE_AI_FRAMEWORKS : List (String × Json) := [
  ("oecd_ai_principles", .obj [
    ("name", .str "OECD AI Principles"),
    ("origin", .str "Adopted in 2019 and revised in 2024 by OECD member and partner countries as a non-binding intergovernmental standard."),
    ("structure", .str "Five value-based principles for AI actors plus complementary recommendations for public policy."),
    ("core_principles", .arr [
      .obj [
        ("name", .str "Inclusive growth, sustainable development and well-being"),
        ("description", .str "AI should advance human and planetary well-being, reduce inequities, and promote sustainable development.")],
      .obj [
        ("name", .str "Respect for human rights and democratic values"),
        ("description", .str "Align AI with rule of law, fundamental rights, privacy, and the 2024 focus on countering mis/disinformation.")],
      .obj [
        ("name", .str "Transparency and explainability"),
        ("description", .str "Enable stakeholders to understand AI logic, data sources, limitations, and uncertainty.")],
      .obj [
        ("name", .str "Robustness, security and safety"),
        ("description", .str "Deliver resilient, secure systems with graceful degradation, override options, and lifecycle maintenance.")],
      .obj [
        ("name", .str "Accountability"),
        ("description", .str "Clarify responsibility for AI outcomes with risk management, auditability, traceability, and redress.")]]),
    ("policy_recommendations", .arr [
      .str "Invest in AI research and development",
      .str "Foster trustworthy AI ecosystems and interoperable governance",
      .str "Strengthen human capacity and institutional readiness",
      .str "Align with international cooperation and standards",
      .str "Create enabling policy environments and infrastructure"]),
    ("strengths", .arr [
      .str "Broad international consensus while remaining flexible",
      .str "2024 update addresses generative AI, info integrity, and lifecycle controls"]),
    ("challenges", .arr [
      .str "High-level principles require national implementation to operationalise",
      .str "Tension points (privacy vs explainability, accountability vs autonomy) remain"])]),
  ("eu_trustworthy_ai_guidelines", .obj [
    ("name", .str "EU Ethics Guidelines for Trustworthy AI"),
    ("origin", .str "Developed by the European Commission\x27s High-Level Expert Group on AI and published in April 2019 as influential but non-binding guidance."),
    ("three_pillars", .arr [
      .str "Lawfulness: comply with applicable EU and member-state laws",
      .str "Ethical alignment: respect fundamental rights and societal values",
      .str "Robustness: maintain technical and social resilience across the lifecycle"]),
    ("ethical_principles", .arr [
      .obj [
        ("name", .str "Respect for human autonomy"),
        ("description", .str "Keep humans in control, avoid manipulation, and ensure oversight.")],
      .obj [
        ("name", .str "Prevention of harm"),
        ("description", .str "Avoid and mitigate foreseeable physical, psychological, or social harm.")],
      .obj [
        ("name", .str "Fairness"),
        ("description", .str "Promote justice, non-discrimination, equal opportunity, and redress.")],
      .obj [
        ("name", .str "Explicability"),
        ("description", .str "Provide transparency, explainability, and contestability for stakeholders.")]]),
    ("requirements", .arr [
      .str "Human agency and oversight",
      .str "Technical robustness and safety",
      .str "Privacy and data governance",
      .str "Transparency",
      .str "Diversity, non-discrimination, and fairness",
      .str "Societal and environmental well-being",
      .str "Accountability"]),
    ("strengths", .arr [
      .str "Practical self-assessment checklists (e.g., ALTAI) enable adoption",
      .str "Deep grounding in EU fundamental rights and emerging regulation"]),
    ("challenges", .arr [
      .str "Implementation depends on organisations translating guidance into metrics",
      .str "Trade-offs between requirements can be under-specified"])]),
  ("australia_ai_ethics_principles", .obj [
    ("name", .str "Australia\x27s AI Ethics Principles"),
    ("origin", .str "Voluntary guidance published by the Australian Government for public and private AI development, aligned with OECD norms."),
    ("principles", .arr [
      .str "Beneficial purpose",
      .str "Safe and reliable",
      .str "Transparency and explainability",
      .str "Fairness",
      .str "Privacy protection",
      .str "Contestability",
      .str "Accountability",
      .str "Human, social, and environmental well-being"]),
    ("notes", .arr [
      .str "Supported by a 2024 Voluntary AI Safety Standard with 10 guardrails",
      .str "Government assurance frameworks map practices to these principles"]),
    ("strengths", .arr [
      .str "Flexible, interoperable with global norms",
      .str "Encourages translation into sector-specific assurance"]),
    ("challenges", .arr [
      .str "Voluntary status can limit compliance",
      .str "Requires additional tooling to measure and audit adherence"])]),
  ("nist_ai_rmf", .obj [
    ("name", .str "NIST AI Risk Management Framework"),
    ("origin", .str "Developed by the U.S. National Institute of Standards and Technology; AI RMF 1.0 released in 2023 with ongoing generative AI updates."),
    ("core_functions", .arr [
      .obj [
        ("name", .str "Govern"),
        ("description", .str "Establish roles, oversight, and accountability for AI risk.")],
      .obj [
        ("name", .str "Map"),
        ("description", .str "Identify AI contexts, stakeholders, and potential harms.")],
      .obj [
        ("name", .str "Measure"),
        ("description", .str "Assess risk likelihood and impact with appropriate metrics.")],
      .obj [
        ("name", .str "Manage"),
        ("description", .str "Implement mitigations, monitor outcomes, and respond to incidents.")]]),
    ("considerations", .arr [
      .str "Risk is context-dependent and evolves over the lifecycle",
      .str "Transparency, fairness, robustness, and accountability underpin trustworthy AI",
      .str "The NIST Playbook offers concrete actions and references"]),
    ("strengths", .arr [
      .str "Process-oriented and adaptable to diverse domains",
      .str "Widely referenced by industry (e.g., Microsoft Responsible AI)"]),
    ("challenges", .arr [
      .str "Voluntary adoption can leave gaps, especially for smaller organisations",
      .str "Quantifying social or ethical harms remains difficult"])]),
  ("microsoft_responsible_ai_principles", .obj [
    ("name", .str "Microsoft Responsible AI Principles"),
    ("origin", .str "Microsoft\x27s internal and public commitments that guide AI product development, supported by governance standards and tooling."),
    ("principles", .arr [
      .str "Fairness",
      .str "Reliability and safety",
      .str "Privacy and security",
      .str "Inclusiveness",
      .str "Transparency",
      .str "Accountability"]),
    ("operational_approach", .arr [
      .str "Align governance with the NIST AI RMF",
      .str "Publish Transparency Notes documenting system limitations",
      .str "Use internal tooling and policy gates to enforce standards"]),
    ("strengths", .arr [
      .str "Concrete tooling and processes translate principles into practice",
      .str "Demonstrates how a large organisation operationalises responsible AI"]),
    ("challenges", .arr [
      .str "Organisation-specific perspective may miss domain nuances",
      .str "Implementation gaps between stated principles and deployed systems"])]),
  ("responsible_ai_additional_references", .obj [
    ("name", .str "Other Notable Responsible AI Frameworks"),
    ("highlights", .arr [
      .str "IEEE Ethically Aligned Design and IEEE 7000 value-based engineering standards",
      .str "Responsible AI Pattern Catalogue (CSIRO and research community) mapping principles to patterns",
      .str "UN human-rights-centred AI proposals",
      .str "Toronto Declaration emphasising equality and non-discrimination",
      .str "Asilomar AI Principles articulating safety and long-term AI governance"])])]

/-- JSON view of a `Framework` entry, with the key order of the source dict. -/
def Framework.toJson (f : Framework) : Json :=
  .obj [("name", .str f.name), ("description", .str f.description),
    ("key_principles", .arr (f.key_principles.map .str))]

/-- `ETHICAL_FRAMEWORKS` as a JSON object body. -/
def ETHICAL_FRAMEWORKS_json : List (String × Json) :=
  ETHICAL_FRAMEWORKS.map (fun p => (p.1, p.2.toJson))

/-- `AI_ETHICS_GUIDELINES` as a JSON object body. -/
def AI_ETHICS_GUIDELINES_json : List (String × Json) :=
  AI_ETHICS_GUIDELINES.map (fun p => (p.1, .str p.2))

/-- Embedding of `read_resource`: exact matches, then the frameworks prefix
with the `responsible_ai` special case and the two-table lookup, else a raised
`ValueError` (modelled as `Except.error`). -/
def read_resource (uri : String) : Except String String :=
  if uri = "ethicist://frameworks/all" then
    .ok (json_dumps (.obj ETHICAL_FRAMEWORKS_json))
  else if uri = "ethicist://guidelines/ai-ethics" then
    .ok (json_dumps (.obj AI_ETHICS_GUIDELINES_json))
  else if pyStartsWith uri "ethicist://frameworks/" then
    let framework_key := lastSegment uri
    if framework_key = "responsible_ai" then
      .ok (json_dumps (.obj RESPONSIBLE_AI_FRAMEWORKS))
    else
      match List.lookup framework_key ETHICAL_FRAMEWORKS_json with
      | some v => .ok (json_dumps v)
      | none =>
          match List.lookup framework_key RESPONSIBLE_AI_FRAMEWORKS with
          | some v => .ok (json_dumps v)
          | none => .error ("Unknown framework: " ++ framework_key)
  else .error ("Unknown resource URI: " ++ uri)

/-- A value in the tool-call argument mapping: the schemas use strings and
lists of strings. -/
inductive ArgValue where
  | s : String → ArgValue
  | arr : List String → ArgValue
deriving DecidableEq

/-- The tool-call argument mapping (`arguments` in `call_tool`). -/
abbrev Args := List (String × ArgValue)

/-- Python truthiness test `not x` on the result of `arguments.get(k)`. -/
def pyFalsy : Option ArgValue → Bool
  | none => true
  | some (.s v) => v == ""
  | some (.arr l) => l.isEmpty

/-- `arguments.get(k)`. -/
def getArg (args : Args) (k : String) : Option ArgValue := List.lookup k args

/-- Rendering of an argument value inside an f-string; a list renders as its
Python repr. -/
def ArgValue.fstr : ArgValue → String
  | .s v => v
  | .arr l => "[" ++ String.intercalate ", " (l.map (fun x => "\x27" ++ x ++ "\x27")) ++ "]"

/-- Rendering of an optional argument value inside an f-string (`None` renders
as the word None). -/
def fstrOpt : Option ArgValue → String
  | none => "None"
  | some v => v.fstr

/-- `arguments.get(k, default)` for a list-valued argument; a string value is
iterated character by character, as Python iteration over a `str` would be. -/
def getArgList (args : Args) (k : String) (dflt : List String) : List String :=
  match List.lookup k args with
  | none => dflt
  | some (.arr l) => l
  | some (.s v) => v.data.map (fun c => String.singleton c)

/-- `arguments.get(k, default)` rendered as a string. -/
def getArgStrD (args : Args) (k : String) (dflt : String) : String :=
  match List.lookup k args with
  | none => dflt
  | some v => v.fstr

/-- The rendered block for one recognised ethical framework. -/
def framework_block (f : Framework) : String :=
  "### " ++ f.name ++ "\nDescription: " ++ f.description ++ "\nKey principles:\n" ++
    String.intercalate "\n" (f.key_principles.map (fun item => "- " ++ item))

/-- The framework context of `analyze_ethical_scenario`: unrecognised keys are
skipped; an empty block list renders the fixed no-frameworks line. -/
def frameworks_context (frameworks : List String) : String :=
  let framework_blocks :=
    frameworks.filterMap (fun key => (List.lookup key ETHICAL_FRAMEWORKS).map framework_block)
  if framework_blocks.isEmpty then "No recognised frameworks provided."
  else String.intercalate "\n\n" framework_blocks

/-- The composed user prompt of `analyze_ethical_scenario`. -/
def analyze_prompt (scenario : String) (frameworks : List String) : String :=
  "Scenario:\n" ++ scenario ++ "\n\nFramework context:\n" ++ frameworks_context frameworks ++
    "\n\nAnalyse the scenario using each framework. For every framework include:\n" ++
    "- Core ethical focus and obligations\n" ++
    "- Scenario-specific assessment referencing the listed principles\n" ++
    "- Key risks, impacted stakeholders, and tension points\n" ++
    "- Practical mitigation or decision guidance\n\n" ++
    "Conclude with:\n" ++
    "- Cross-framework synthesis highlighting convergences/divergences\n" ++
    "- Actionable recommendations and governance checkpoints\n" ++
    "- Risk register (high/medium/low) with monitoring cues."

/-- The guideline summary shared by `evaluate_ai_system` and
`generate_ethical_guidelines`. -/
def guideline_summary : String :=
  String.intercalate "\n"
    (AI_ETHICS_GUIDELINES.map (fun p => "- " ++ pyTitle (underscoresToSpaces p.1) ++ ": " ++ p.2))

/-- The composed user prompt of `evaluate_ai_system`. -/
def evaluate_prompt (system_desc use_case stakeholder_line : String) : String :=
  "Evaluate the ethical posture of an AI system.\n\nSystem description: " ++ system_desc ++
    "\nUse case: " ++ use_case ++ "\nStakeholders: " ++ stakeholder_line ++
    "\n\nReference guidelines and principles:\n" ++ guideline_summary ++
    "\n\nProduce a Markdown report with sections for each guideline. For every section include:\n" ++
    "- Strengths currently observed or targeted\n" ++
    "- Gaps or risks with severity ratings\n" ++
    "- Mitigation actions, owners, and timelines\n" ++
    "- Metrics or signals to monitor\n\n" ++
    "After the per-guideline analysis provide:\n" ++
    "- A consolidated risk heatmap\n" ++
    "- Immediate, short-term, and long-term recommendations\n" ++
    "- Governance artefacts needed (policies, audits, documentation)\n" ++
    "- Stakeholder engagement plan."

/-- The `bias_descriptions` table of the `check_bias` branch. -/
def bias_descriptions : List (String × String) := [
  ("selection", "Occurs when the data sample is not representative of the population"),
  ("confirmation", "Tendency to interpret information confirming existing beliefs"),
  ("algorithmic", "Systematic errors introduced by algorithm design choices"),
  ("representation", "Underrepresentation or misrepresentation of certain groups"),
  ("measurement", "Errors in how variables are defined and measured")]

/-- The rendered line for one requested bias type: an unknown type is kept and
given the fixed placeholder description. -/
def bias_line (bias_type : String) : String :=
  "- " ++ pyTitle bias_type ++ " bias: " ++
    ((List.lookup bias_type bias_descriptions).getD "No definition available")

/-- The rendered bias block of `check_bias`. -/
def bias_blocks (bias_types : List String) : String :=
  String.intercalate "\n" (bias_types.map bias_line)

/-- The composed user prompt of `check_bias`. -/
def check_bias_prompt (context : String) (bias_types : List String) : String :=
  "Context for bias assessment:\n" ++ context ++ "\n\nBias types to evaluate:\n" ++
    bias_blocks bias_types ++
    "\n\nDeliver a structured bias risk assessment that includes:\n" ++
    "- Diagnostic questions and tests for each bias type\n" ++
    "- Evidence to collect or metrics to review\n" ++
    "- Likely impacts on stakeholders and compliance obligations\n" ++
    "- Concrete mitigation strategies (data, model, process, governance)\n" ++
    "- Residual risk and monitoring plans\n" ++
    "- Checklist for ongoing assurance."

/-- The composed user prompt of `generate_ethical_guidelines`. -/
def guidelines_prompt (project_type risk_level regulations_line : String) : String :=
  "Create ethical guidelines.\n\nProject type: " ++ project_type ++
    "\nRisk level: " ++ risk_level ++ "\nRegulations or standards: " ++ regulations_line ++
    "\n\nRelevant ethical principles:\n" ++ guideline_summary ++
    "\n\nOutput a Markdown guide containing:\n" ++
    "- Executive summary with risk posture\n" ++
    "- Principle-by-principle requirements with acceptance criteria\n" ++
    "- Domain-specific considerations (reference regulations if provided)\n" ++
    "- Roles and responsibilities matrix\n" ++
    "- Implementation roadmap (immediate, near-term, long-term)\n" ++
    "- Assurance activities (audits, evaluations, reporting)\n" ++
    "- Stakeholder engagement and communication plan\n" ++
    "- KPIs/metrics for ongoing monitoring."

/-- The composed user prompt of `assess_transparency`. -/
def transparency_prompt (system_type explanation_line stakeholders_line : String) : String :=
  "Prepare a transparency and explainability assessment.\n\nSystem type: " ++ system_type ++
    "\nExplanation method: " ++ explanation_line ++
    "\nStakeholder needs: " ++ stakeholders_line ++
    "\n\nAddress the following:\n" ++
    "- Transparency objectives for each stakeholder group\n" ++
    "- Current explanation techniques and their adequacy\n" ++
    "- Gaps in comprehensibility, documentation, or tooling\n" ++
    "- Risks related to opacity, misinterpretation, or misuse\n" ++
    "- Recommendations for improving transparency (technical, process, communication)\n" ++
    "- Evidence required for regulatory or assurance purposes\n" ++
    "- Plan for monitoring transparency effectiveness over time."

/-- A returned content item (`TextContent | ImageContent | EmbeddedResource`). -/
inductive Content where
  | text : String → Content
  | image : String → String → Content
  | embeddedResource : String → Content
deriving DecidableEq

/-- A recorded Completion Gateway invocation: subject label and composed user
prompt of the issued request. -/
structure GwCall where
  subject : String
  user_prompt : String
deriving DecidableEq

/-- The warning returned when `scenario` is missing or empty. -/
def analyze_missing_warning : String :=
  "Warning: The \x27scenario\x27 argument is required."

/-- The warning returned when `system_description` or `use_case` is missing or
empty. -/
def evaluate_missing_warning : String :=
  "Warning: \x27system_description\x27 and \x27use_case\x27 are required."

/-- The warning returned when `context` is missing or empty. -/
def check_bias_missing_warning : String :=
  "Warning: The \x27context\x27 argument is required."

/-- The warning returned when `project_type` is missing or empty. -/
def guidelines_missing_warning : String :=
  "Warning: The \x27project_type\x27 argument is required."

/-- The warning returned when `system_type` is missing or empty. -/
def transparency_missing_warning : String :=
  "Warning: The \x27system_type\x27 argument is required."

/-- Embedding of `call_tool`. Besides the returned content items, the result
carries the updated gateway state and the list of Completion Gateway
invocations the call issued (empty on the warning and unknown-tool paths, a
single request otherwise). -/
def call_tool (name : String) (arguments : Args) (apiKey : Option String)
    (behavior : UpstreamBehavior) (st : GatewayState) :
    List Content × GatewayState × List GwCall :=
  if name = "analyze_ethical_scenario" then
    let scenario := getArg arguments "scenario"
    if pyFalsy scenario then ([.text analyze_missing_warning], st, [])
    else
      let frameworks := getArgList arguments "frameworks"
        ["utilitarian", "deontological", "virtue", "social_contract"]
      let user_prompt := analyze_prompt (fstrOpt scenario) frameworks
      let r := generate_openai_response apiKey "Ethical scenario analysis" behavior st
      ([.text r.1], r.2, [⟨"Ethical scenario analysis", user_prompt⟩])
  else if name = "evaluate_ai_system" then
    let system_desc := getArg arguments "system_description"
    let use_case := getArg arguments "use_case"
    let stakeholders := getArgList arguments "stakeholders" []
    if pyFalsy system_desc || pyFalsy use_case then
      ([.text evaluate_missing_warning], st, [])
    else
      let stakeholder_line :=
        if stakeholders.isEmpty then "Not specified" else String.intercalate ", " stakeholders
      let user_prompt := evaluate_prompt (fstrOpt system_desc) (fstrOpt use_case) stakeholder_line
      let r := generate_openai_response apiKey "AI system ethical evaluation" behavior st
      ([.text r.1], r.2, [⟨"AI system ethical evaluation", user_prompt⟩])
  else if name = "check_bias" then
    let context := getArg arguments "context"
    let bias_types := getArgList arguments "bias_types"
      ["selection", "confirmation", "algorithmic", "representation", "measurement"]
    if pyFalsy context then ([.text check_bias_missing_warning], st, [])
    else
      let user_prompt := check_bias_prompt (fstrOpt context) bias_types
      let r := generate_openai_response apiKey "Bias assessment" behavior st
      ([.text r.1], r.2, [⟨"Bias assessment", user_prompt⟩])
  else if name = "generate_ethical_guidelines" then
    let project_type := getArg arguments "project_type"
    let risk_level := getArgStrD arguments "risk_level" "medium"
    let regulations := getArgList arguments "regulations" []
    if pyFalsy project_type then ([.text guidelines_missing_warning], st, [])
    else
      let regulations_line :=
        if regulations.isEmpty then "None specified" else String.intercalate ", " regulations
      let user_prompt := guidelines_prompt (fstrOpt project_type) risk_level regulations_line
      let r := generate_openai_response apiKey "Project ethical guidelines" behavior st
      ([.text r.1], r.2, [⟨"Project ethical guidelines", user_prompt⟩])
  else if name = "assess_transparency" then
    let system_type := getArg arguments "system_type"
    let explanation_method := getArg arguments "explanation_method"
    let stakeholder_needs := getArgList arguments "stakeholder_needs" []
    if pyFalsy system_type then ([.text transparency_missing_warning], st, [])
    else
      let explanation_line :=
        if pyFalsy explanation_method then "Not specified" else fstrOpt explanation_method
      let stakeholders_line :=
        if stakeholder_needs.isEmpty then "Not specified"
        else String.intercalate ", " stakeholder_needs
      let user_prompt := transparency_prompt (fstrOpt system_type) explanation_line stakeholders_line
      let r := generate_openai_response apiKey "Transparency assessment" behavior st
      ([.text r.1], r.2, [⟨"Transparency assessment", user_prompt⟩])
  else ([.text ("Unknown tool: " ++ name)], st, [])

/-- The identifiers of the five declared tools (in declaration order). -/
def TOOL_NAMES : List String :=
  ["analyze_ethical_scenario", "evaluate_ai_system", "check_bias",
   "generate_ethical_guidelines", "assess_transparency"]

/-- The identifiers of the three declared prompts (in declaration order). -/
def PROMPT_NAMES : List String :=
  ["ethical_decision_making", "stakeholder_analysis", "ai_risk_assessment"]

/-- A message of a prompt-template result. -/
structure PromptMessage where
  role : String
  text : String
deriving DecidableEq

/-- The result of `get_prompt`. -/
structure GetPromptResult where
  description : String
  messages : List PromptMessage
deriving DecidableEq

/-- The optional argument mapping of `get_prompt`. -/
abbrev PromptArgs := Option (List (String × String))

/-- `arguments.get(k, dflt) if arguments else dflt` (an empty mapping is falsy
in Python and also yields the default, which coincides with a failed lookup). -/
def promptArgGet (arguments : PromptArgs) (k dflt : String) : String :=
  match arguments with
  | none => dflt
  | some m => (List.lookup k m).getD dflt

/-- The value found for key `k`, when the mapping exists and has the key. -/
def promptArgLookup (arguments : PromptArgs) (k : String) : Option String :=
  match arguments with
  | none => none
  | some m => List.lookup k m

/-- The message template of the `ethical_decision_making` prompt. -/
def ethical_decision_making_text (situation : String) : String :=
  "I need help thinking through an ethical decision: " ++ situation ++
"\n\nPlease help me analyse this using a structured approach:

1. **Clarify the Situation**
   - What are the key facts?
   - What is the core ethical question?
   - What is at stake?

2. **Identify Stakeholders**
   - Who will be affected by this decision?
   - What are their interests and concerns?
   - Who has power and who is vulnerable?

3. **Consider Multiple Perspectives**
   - Utilitarian: What produces the greatest good?
   - Deontological: What are my duties and obligations?
   - Virtue Ethics: What would a person of good character do?
   - Social Contract: Would this decision be acceptable under fair terms to all affected parties?

4. **Evaluate Options**
   - What are the possible courses of action?
   - What are the likely consequences of each?
   - Which aligns best with ethical principles?

5. **Make a Decision**
   - What is the most ethical choice?
   - How will I implement it?
   - How will I monitor the outcome?

Please guide me through this process."

/-- The message template of the `stakeholder_analysis` prompt. -/
def stakeholder_analysis_text (decision : String) : String :=
  "I need to analyse stakeholders for: " ++ decision ++
"\n\nHelp me identify and analyse all stakeholders:

1. **Direct Stakeholders** (immediately affected)
   - Who benefits directly from this decision?
   - Who might be harmed directly?
   - What are their rights and interests?

2. **Indirect Stakeholders** (secondarily affected)
   - Who else might be impacted?
   - What are the ripple effects?
   - Are there future generations to consider?

3. **Power Analysis**
   - Who has decision-making power?
   - Who is vulnerable or powerless?
   - How can we ensure fair representation?

4. **Stakeholder Engagement**
   - Who should be consulted?
   - How can we gather their input?
   - How do we balance competing interests?

5. **Equity Considerations**
   - Are any groups disproportionately affected?
   - How can we ensure fairness?
   - What are the implications for social justice?

Please help me work through each of these areas."

/-- The message template of the `ai_risk_assessment` prompt. -/
def ai_risk_assessment_text (system_desc context : String) : String :=
  "I need to assess ethical risks for: " ++ system_desc ++
    "\nDeployment context: " ++ context ++
"\n\nPlease help me evaluate:

1. **Fairness Risks**
   - Could the system discriminate against protected groups?
   - Is the training data representative?
   - Are there historical biases to consider?
   - How will we measure and ensure fairness?

2. **Transparency Risks**
   - Can users understand how decisions are made?
   - Is the system\x27s logic explainable?
   - Are there \"black box\" concerns?
   - What documentation is needed?

3. **Privacy Risks**
   - What personal data is collected?
   - How is data protected?
   - Are privacy regulations followed?
   - Could data be misused?

4. **Safety and Security Risks**
   - What could go wrong?
   - How are errors handled?
   - Could the system be manipulated?
   - What are the failure modes?

5. **Autonomy and Control Risks**
   - Does the system preserve human agency?
   - Can decisions be appealed?
   - Is there appropriate human oversight?
   - Could it create dependency?

6. **Social Impact Risks**
   - How might this affect employment?
   - Could it increase inequality?
   - What are the environmental impacts?
   - Are there unintended consequences?

Please help me assess each risk category and recommend mitigations."

/-- Embedding of `get_prompt`: the three templates with their baked-in
placeholder defaults; an unknown identifier raises (modelled as
`Except.error`). -/
def get_prompt (name : String) (arguments : PromptArgs) : Except String GetPromptResult :=
  if name = "ethical_decision_making" then
    let situation := promptArgGet arguments "situation" "a difficult choice"
    .ok ⟨"Structured ethical decision-making process",
      [⟨"user", ethical_decision_making_text situation⟩]⟩
  else if name = "stakeholder_analysis" then
    let decision := promptArgGet arguments "decision" "this decision"
    .ok ⟨"Comprehensive stakeholder analysis",
      [⟨"user", stakeholder_analysis_text decision⟩]⟩
  else if name = "ai_risk_assessment" then
    let system_desc := promptArgGet arguments "system_description" "an AI system"
    let context := promptArgGet arguments "deployment_context" "various contexts"
    .ok ⟨"AI ethical risk assessment",
      [⟨"user", ai_risk_assessment_text system_desc context⟩]⟩
  else .error ("Unknown prompt: " ++ name)

theorem data_append_assoc (A s B : String) :
    A.data ++ s.data ++ B.data = (A ++ s ++ B).data := by
  simp [String.data_append]

theorem substring_sandwich (A s B : String) : s.data <:+: (A ++ s ++ B).data :=
  ⟨A.data, B.data, data_append_assoc A s B⟩

theorem generate_no_key (apiKey : Option String) (subject : String)
    (behavior : UpstreamBehavior) (st : GatewayState) (h : keyFalsy apiKey = true) :
    generate_openai_response apiKey subject behavior st = (openai_key_missing_text subject, st) := by
  unfold generate_openai_response get_openai_client
  rw [h]
  simp

/-- C6: the Completion Gateway result is total over the three failure tiers,
each fallback text contains the literal subject string, and a successful
non-empty completion is returned stripped and otherwise unmodified. -/
theorem claim_c6 (apiKey : Option String) (subject exc : String)
    (content : Option String) (st : GatewayState) :
    (keyFalsy apiKey = true → ∀ behavior,
      generate_openai_response apiKey subject behavior st
        = (openai_key_missing_text subject, st) ∧
      subject.data <:+: (openai_key_missing_text subject).data) ∧
    (keyFalsy apiKey = false →
      (generate_openai_response apiKey subject (.raises exc) st).1
        = openai_error_text subject exc ∧
      subject.data <:+: (openai_error_text subject exc).data) ∧
    (keyFalsy apiKey = false → cleanedOf content = "" →
      (generate_openai_response apiKey subject (.returns content) st).1
        = openai_empty_text subject ∧
      subject.data <:+: (openai_empty_text subject).data) ∧
    (keyFalsy apiKey = false → cleanedOf content ≠ "" →
      (generate_openai_response apiKey subject (.returns content) st).1
        = cleanedOf content) := by
  refine ⟨?_, ?_, ?_, ?_⟩
  · intro h behavior
    exact ⟨generate_no_key apiKey subject behavior st h,
      substring_sandwich _ subject "\n\nProvide a valid API key to enable AI-generated analyses."⟩
  · intro h
    refine ⟨?_, ?_⟩
    · cases hcl : st.openaiClient <;>
        simp [generate_openai_response, get_openai_client, h, hcl]
    · exact ⟨"Warning: Encountered an error while contacting OpenAI.\n\nSubject: ".data,
        ("\nError: " ++ exc ++ "\n\nPlease retry later or review API credentials.").data,
        by simp [openai_error_text, String.data_append]⟩
  · intro h h2
    refine ⟨?_, ?_⟩
    · cases hcl : st.openaiClient <;>
        simp [generate_openai_response, get_openai_client, h, hcl, h2]
    · exact substring_sandwich "Warning: OpenAI returned an empty response.\n\nSubject: "
        subject "\n\nConsider reissuing the request or adjusting the input context."
  · intro h h2
    cases hcl : st.openaiClient <;>
      simp [generate_openai_response, get_openai_client, h, hcl, h2]

theorem claim_c6_witness :
    (keyFalsy (none : Option String) = true ∧
      generate_openai_response none "S" (.raises "boom") ⟨none, 0⟩
        = (openai_key_missing_text "S", ⟨none, 0⟩)) ∧
    (keyFalsy (some "k") = false ∧
      (generate_openai_response (some "k") "S" (.raises "boom") ⟨none, 0⟩).1
        = openai_error_text "S" "boom") ∧
    (cleanedOf (some "  \n ") = "" ∧
      (generate_openai_response (some "k") "S" (.returns (some "  \n ")) ⟨none, 0⟩).1
        = openai_empty_text "S") ∧
    (cleanedOf (some " hello ") = "hello" ∧
      (generate_openai_response (some "k") "S" (.returns (some " hello ")) ⟨none, 0⟩).1
        = cleanedOf (some " hello ")) := by
  refine ⟨⟨rfl, ?_⟩, ⟨rfl, ?_⟩, ⟨?_, ?_⟩, ⟨?_, ?_⟩⟩
  · exact ((claim_c6 none "S" "boom" none ⟨none, 0⟩).1 rfl (.raises "boom")).1
  · exact ((claim_c6 (some "k") "S" "boom" none ⟨none, 0⟩).2.1 rfl).1
  · decide
  · exact ((claim_c6 (some "k") "S" "boom" (some "  \n ") ⟨none, 0⟩).2.2.1 rfl (by decide)).1
  · decide
  · exact (claim_c6 (some "k") "S" "boom" (some " hello ") ⟨none, 0⟩).2.2.2 rfl (by decide)

/-- C2 counterexample: the no-credential mode is not permanent. Starting from
the initial state with no client, a first call without a credential returns the
tier-1 fallback and creates nothing, but a second call that finds a credential
in the environment creates the client and returns the upstream completion, not
the tier-1 fallback. -/
theorem claim_c2_counterexample :
    generate_openai_response none "S" (.returns (some "ok")) ⟨none, 0⟩
      = (openai_key_missing_text "S", ⟨none, 0⟩) ∧
    generate_openai_response (some "k") "S" (.returns (some "ok")) ⟨none, 0⟩
      = ("ok", ⟨some 0, 1⟩) ∧
    "ok" ≠ openai_key_missing_text "S" := by
  refine ⟨rfl, by decide, by decide⟩

/-- C2 (amended): a Gateway call that finds no credential in the environment
returns the tier-1 fallback immediately and does not create the client (the
state is unchanged); the credential is re-read from the environment on every
call, so a later call that does find a credential creates the lazy singleton —
the no-credential mode is per-call, not permanent. -/
theorem claim_c2_amended (apiKey : Option String) (subject : String)
    (behavior : UpstreamBehavior) (st : GatewayState) (key2 : Option String) (n : Nat)
    (h : keyFalsy apiKey = true) (h2 : keyFalsy key2 = false) :
    generate_openai_response apiKey subject behavior st
      = (openai_key_missing_text subject, st) ∧
    get_openai_client key2 ⟨none, n⟩ = (some n, ⟨some n, n + 1⟩) := by
  refine ⟨generate_no_key apiKey subject behavior st h, ?_⟩
  simp [get_openai_client, h2]

theorem claim_c2_amended_witness :
    keyFalsy (some "") = true ∧ keyFalsy (some "sk-1") = false ∧
    generate_openai_response (some "") "S" (.raises "boom") ⟨none, 5⟩
      = (openai_key_missing_text "S", ⟨none, 5⟩) ∧
    get_openai_client (some "sk-1") ⟨none, 5⟩ = (some 5, ⟨some 5, 6⟩) := by
  refine ⟨rfl, rfl, ?_, ?_⟩
  · exact (claim_c2_amended (some "") "S" (.raises "boom") ⟨none, 5⟩ (some "sk-1") 5 rfl rfl).1
  · exact (claim_c2_amended (some "") "S" (.raises "boom") ⟨none, 5⟩ (some "sk-1") 5 rfl rfl).2

/-- C3: once the client singleton exists, every later lookup that finds a
credential (of any value) returns exactly that client and leaves the state
unchanged — the client is never reconstructed; consequently a full Gateway
call with a credential present leaves the state unchanged as well. -/
theorem claim_c3 (st : GatewayState) (c : Nat) (apiKey : Option String)
    (h1 : st.openaiClient = some c) (h2 : keyFalsy apiKey = false) :
    get_openai_client apiKey st = (some c, st) ∧
    (∀ subject behavior,
      (generate_openai_response apiKey subject behavior st).2 = st) := by
  have hclient : get_openai_client apiKey st = (some c, st) := by
    simp [get_openai_client, h1, h2]
  refine ⟨hclient, ?_⟩
  intro subject behavior
  cases behavior with
  | raises exc => simp [generate_openai_response, hclient]
  | returns content =>
      by_cases hc : cleanedOf content = "" <;>
        simp [generate_openai_response, hclient, hc]

theorem claim_c3_witness :
    get_openai_client (some "a-different-key") ⟨some 7, 8⟩ = (some 7, ⟨some 7, 8⟩) ∧
    (generate_openai_response (some "a-different-key") "S" (.returns (some "x")) ⟨some 7, 8⟩).2
      = ⟨some 7, 8⟩ := by
  refine ⟨?_, ?_⟩
  · exact (claim_c3 ⟨some 7, 8⟩ 7 (some "a-different-key") rfl rfl).1
  · exact (claim_c3 ⟨some 7, 8⟩ 7 (some "a-different-key") rfl rfl).2 "S" (.returns (some "x"))

set_option maxRecDepth 100000 in
/-- C1 counterexample: calling `check_bias` with context "Historical hiring
data" and no credential returns the tier-1 fallback, whose text embeds only
the subject label "Bias assessment" — it does not contain the literal string
"Historical hiring data", contrary to the claim. -/
theorem claim_c1_counterexample :
    (call_tool "check_bias" [("context", .s "Historical hiring data")] none
        (.returns none) ⟨none, 0⟩).1
      = [Content.text (openai_key_missing_text "Bias assessment")] ∧
    ¬ "Historical hiring data".data <:+: (openai_key_missing_text "Bias assessment").data :=
  ⟨rfl, by decide⟩

set_option maxRecDepth 100000 in
/-- C1 (amended): with context "Historical hiring data" and no `bias_types`
key, `check_bias` defaults to the five-type list and composes a prompt that
contains the context and every default bias type; with no credential
configured the returned text is the tier-1 fallback, which contains the
subject label "Bias assessment" and the words "not configured" — but not the
context string itself, which reaches only the composed prompt. -/
theorem claim_c1_amended (apiKey : Option String) (behavior : UpstreamBehavior)
    (st : GatewayState) (h : keyFalsy apiKey = true) :
    call_tool "check_bias" [("context", .s "Historical hiring data")] apiKey behavior st
      = ([Content.text (openai_key_missing_text "Bias assessment")], st,
         [⟨"Bias assessment",
           check_bias_prompt "Historical hiring data"
             ["selection", "confirmation", "algorithmic", "representation", "measurement"]⟩]) ∧
    "Bias assessment".data <:+: (openai_key_missing_text "Bias assessment").data ∧
    "not configured".data <:+: (openai_key_missing_text "Bias assessment").data ∧
    (∀ t ∈ ["selection", "confirmation", "algorithmic", "representation", "measurement"],
      (pyTitle t ++ " bias").data <:+:
        (check_bias_prompt "Historical hiring data"
          ["selection", "confirmation", "algorithmic", "representation", "measurement"]).data) ∧
    "Historical hiring data".data <:+:
      (check_bias_prompt "Historical hiring data"
        ["selection", "confirmation", "algorithmic", "representation", "measurement"]).data := by
  refine ⟨?_, by decide, by decide, by decide, by decide⟩
  have hred : call_tool "check_bias" [("context", ArgValue.s "Historical hiring data")]
      apiKey behavior st
      = ([Content.text (generate_openai_response apiKey "Bias assessment" behavior st).1],
         (generate_openai_response apiKey "Bias assessment" behavior st).2,
         [⟨"Bias assessment",
           check_bias_prompt "Historical hiring data"
             ["selection", "confirmation", "algorithmic", "representation", "measurement"]⟩]) := rfl
  rw [hred, generate_no_key apiKey "Bias assessment" behavior st h]

theorem claim_c1_witness :
    call_tool "check_bias" [("context", .s "Historical hiring data")] none
        (.raises "boom") ⟨none, 3⟩
      = ([Content.text (openai_key_missing_text "Bias assessment")], ⟨none, 3⟩,
         [⟨"Bias assessment",
           check_bias_prompt "Historical hiring data"
             ["selection", "confirmation", "algorithmic", "representation", "measurement"]⟩]) :=
  (claim_c1_amended none (.raises "boom") ⟨none, 3⟩ rfl).1

/-- C4: for each of the five tools, a required argument that is absent or
empty produces a single warning text content item naming the missing field,
issues no Completion Gateway request, and leaves the gateway state unchanged
(the embedding is total, so no exception is raised). -/
theorem claim_c4 :
    (∀ (arguments : Args) apiKey behavior st,
      pyFalsy (getArg arguments "scenario") = true →
        call_tool "analyze_ethical_scenario" arguments apiKey behavior st
          = ([Content.text analyze_missing_warning], st, [])) ∧
    "scenario".data <:+: analyze_missing_warning.data ∧
    (∀ (arguments : Args) apiKey behavior st,
      (pyFalsy (getArg arguments "system_description")
        || pyFalsy (getArg arguments "use_case")) = true →
        call_tool "evaluate_ai_system" arguments apiKey behavior st
          = ([Content.text evaluate_missing_warning], st, [])) ∧
    "system_description".data <:+: evaluate_missing_warning.data ∧
    "use_case".data <:+: evaluate_missing_warning.data ∧
    (∀ (arguments : Args) apiKey behavior st,
      pyFalsy (getArg arguments "context") = true →
        call_tool "check_bias" arguments apiKey behavior st
          = ([Content.text check_bias_missing_warning], st, [])) ∧
    "context".data <:+: check_bias_missing_warning.data ∧
    (∀ (arguments : Args) apiKey behavior st,
      pyFalsy (getArg arguments "project_type") = true →
        call_tool "generate_ethical_guidelines" arguments apiKey behavior st
          = ([Content.text guidelines_missing_warning], st, [])) ∧
    "project_type".data <:+: guidelines_missing_warning.data ∧
    (∀ (arguments : Args) apiKey behavior st,
      pyFalsy (getArg arguments "system_type") = true →
        call_tool "assess_transparency" arguments apiKey behavior st
          = ([Content.text transparency_missing_warning], st, [])) ∧
    "system_type".data <:+: transparency_missing_warning.data := by
  refine ⟨?_, by decide, ?_, by decide, by decide, ?_, by decide, ?_, by decide, ?_, by decide⟩
  all_goals intro arguments apiKey behavior st h
  all_goals simp [call_tool, h]

theorem claim_c4_witness :
    (pyFalsy (getArg [] "scenario") = true ∧
      call_tool "analyze_ethical_scenario" [] none (.returns none) ⟨none, 0⟩
        = ([Content.text analyze_missing_warning], ⟨none, 0⟩, [])) ∧
    ((pyFalsy (getArg [("system_description", .s "x")] "system_description")
        || pyFalsy (getArg [("system_description", .s "x")] "use_case")) = true ∧
      call_tool "evaluate_ai_system" [("system_description", .s "x")] none
          (.returns none) ⟨none, 0⟩
        = ([Content.text evaluate_missing_warning], ⟨none, 0⟩, [])) ∧
    (pyFalsy (getArg [("context", .s "")] "context") = true ∧
      call_tool "check_bias" [("context", .s "")] none (.returns none) ⟨none, 0⟩
        = ([Content.text check_bias_missing_warning], ⟨none, 0⟩, [])) ∧
    (pyFalsy (getArg [] "project_type") = true ∧
      call_tool "generate_ethical_guidelines" [] none (.returns none) ⟨none, 0⟩
        = ([Content.text guidelines_missing_warning], ⟨none, 0⟩, [])) ∧
    (pyFalsy (getArg [("system_type", .arr [])] "system_type") = true ∧
      call_tool "assess_transparency" [("system_type", .arr [])] none
          (.returns none) ⟨none, 0⟩
        = ([Content.text transparency_missing_warning], ⟨none, 0⟩, [])) := by
  refine ⟨⟨rfl, ?_⟩, ⟨rfl, ?_⟩, ⟨rfl, ?_⟩, ⟨rfl, ?_⟩, ⟨rfl, ?_⟩⟩
  · exact claim_c4.1 [] none (.returns none) ⟨none, 0⟩ rfl
  · exact claim_c4.2.2.1 [("system_description", .s "x")] none (.returns none) ⟨none, 0⟩ rfl
  · exact claim_c4.2.2.2.2.2.1 [("context", .s "")] none (.returns none) ⟨none, 0⟩ rfl
  · exact claim_c4.2.2.2.2.2.2.2.1 [] none (.returns none) ⟨none, 0⟩ rfl
  · exact claim_c4.2.2.2.2.2.2.2.2.2.1 [("system_type", .arr [])] none (.returns none) ⟨none, 0⟩ rfl

/-- C10: every `call_tool` result carries exactly one content item, and that
item is a text content item — on success, on a missing required argument, on
every Gateway fallback tier, and on an unknown tool name alike. -/
theorem claim_c10 (name : String) (arguments : Args) (apiKey : Option String)
    (behavior : UpstreamBehavior) (st : GatewayState) :
    ∃ t, (call_tool name arguments apiKey behavior st).1 = [Content.text t] := by
  unfold call_tool
  repeat' first
    | exact ⟨_, rfl⟩
    | split
    | dsimp only

theorem suffix_in_append (P s : String) : s.data <:+: (P ++ s).data :=
  ⟨P.data, [], by simp [String.data_append]⟩

/-- C5: an unknown tool name is absorbed as ordinary text content naming the
identifier; an unknown resource URI, an unknown frameworks key, and an unknown
prompt name are raised as errors carrying the offending identifier. -/
theorem claim_c5 :
    (∀ (name : String) (arguments : Args) apiKey behavior st, name ∉ TOOL_NAMES →
      call_tool name arguments apiKey behavior st
        = ([Content.text ("Unknown tool: " ++ name)], st, []) ∧
      name.data <:+: ("Unknown tool: " ++ name).data) ∧
    (∀ uri : String, uri ≠ "ethicist://frameworks/all" →
      uri ≠ "ethicist://guidelines/ai-ethics" →
      pyStartsWith uri "ethicist://frameworks/" = false →
      read_resource uri = .error ("Unknown resource URI: " ++ uri) ∧
      uri.data <:+: ("Unknown resource URI: " ++ uri).data) ∧
    (∀ uri : String, uri ≠ "ethicist://frameworks/all" →
      pyStartsWith uri "ethicist://frameworks/" = true →
      lastSegment uri ≠ "responsible_ai" →
      List.lookup (lastSegment uri) ETHICAL_FRAMEWORKS_json = none →
      List.lookup (lastSegment uri) RESPONSIBLE_AI_FRAMEWORKS = none →
      read_resource uri = .error ("Unknown framework: " ++ lastSegment uri) ∧
      (lastSegment uri).data <:+: ("Unknown framework: " ++ lastSegment uri).data) ∧
    (∀ (name : String) (arguments : PromptArgs), name ∉ PROMPT_NAMES →
      get_prompt name arguments = .error ("Unknown prompt: " ++ name) ∧
      name.data <:+: ("Unknown prompt: " ++ name).data) := by
  refine ⟨?_, ?_, ?_, ?_⟩
  · intro name arguments apiKey behavior st h
    simp only [TOOL_NAMES, List.mem_cons, List.not_mem_nil, or_false, not_or] at h
    obtain ⟨h1, h2, h3, h4, h5⟩ := h
    exact ⟨by simp [call_tool, h1, h2, h3, h4, h5], suffix_in_append _ _⟩
  · intro uri h1 h2 h3
    exact ⟨by simp [read_resource, h1, h2, h3], suffix_in_append _ _⟩
  · intro uri h0 h1 h2 h3 h4
    have hg : uri ≠ "ethicist://guidelines/ai-ethics" := by
      intro e
      rw [e] at h1
      exact absurd h1 (by decide)
    exact ⟨by simp [read_resource, h0, hg, h1, h2, h3, h4], suffix_in_append _ _⟩
  · intro name arguments h
    simp only [PROMPT_NAMES, List.mem_cons, List.not_mem_nil, or_false, not_or] at h
    obtain ⟨h1, h2, h3⟩ := h
    exact ⟨by simp [get_prompt, h1, h2, h3], suffix_in_append _ _⟩

theorem claim_c5_witness :
    ("no_such_tool" ∉ TOOL_NAMES ∧
      call_tool "no_such_tool" [] none (.returns none) ⟨none, 0⟩
        = ([Content.text ("Unknown tool: " ++ "no_such_tool")], ⟨none, 0⟩, [])) ∧
    read_resource "http://example.com/other" = .error ("Unknown resource URI: " ++ "http://example.com/other") ∧
    read_resource "ethicist://frameworks/zzz" = .error ("Unknown framework: " ++ lastSegment "ethicist://frameworks/zzz") ∧
    ("no_such_prompt" ∉ PROMPT_NAMES ∧
      get_prompt "no_such_prompt" none = .error ("Unknown prompt: " ++ "no_such_prompt")) := by
  refine ⟨⟨by decide, ?_⟩, ?_, ?_, ⟨by decide, ?_⟩⟩
  · exact (claim_c5.1 "no_such_tool" [] none (.returns none) ⟨none, 0⟩ (by decide)).1
  · exact (claim_c5.2.1 "http://example.com/other" (by decide) (by decide) (by decide)).1
  · exact (claim_c5.2.2.1 "ethicist://frameworks/zzz" (by decide) (by decide) (by decide) rfl rfl).1
  · exact (claim_c5.2.2.2 "no_such_prompt" none (by decide)).1

set_option maxRecDepth 100000 in
/-- C7 counterexample: an unknown bias-type entry is not dropped from the
rendered prompt — it is kept with the placeholder description "No definition
available", so the prompt with the unknown entry differs from the one
without it. -/
theorem claim_c7_counterexample :
    "Zzz bias: No definition available".data <:+: (check_bias_prompt "ctx" ["zzz"]).data ∧
    (call_tool "check_bias" [("context", .s "ctx"), ("bias_types", .arr ["zzz"])] none
        (.returns none) ⟨none, 0⟩).2.2
      = [⟨"Bias assessment", check_bias_prompt "ctx" ["zzz"]⟩] ∧
    check_bias_prompt "ctx" ["zzz"] ≠ check_bias_prompt "ctx" [] := by
  refine ⟨by decide, rfl, by decide⟩

theorem intercalate_singleton (sep s : String) : String.intercalate sep [s] = s := rfl

/-- C7 (amended): a frameworks selector key that is not in the
ethical-frameworks map is silently dropped from the rendered context, but a
bias-type entry that is not in the bias-descriptions table is kept in the
rendered prompt with the placeholder description "No definition available";
in neither case does a warning about the key appear in the returned content
(with no credential the returned text is the tier-1 fallback, independent of
the selector keys). -/
theorem claim_c7_amended :
    (∀ (scenario : String) (ks1 ks2 : List String) (key : String),
      List.lookup key ETHICAL_FRAMEWORKS = none →
      analyze_prompt scenario (ks1 ++ key :: ks2) = analyze_prompt scenario (ks1 ++ ks2)) ∧
    (∀ (ctx t : String), List.lookup t bias_descriptions = none →
      check_bias_prompt ctx [t]
        = "Context for bias assessment:\n" ++ ctx ++ "\n\nBias types to evaluate:\n" ++
          ("- " ++ pyTitle t ++ " bias: " ++ "No definition available") ++
          "\n\nDeliver a structured bias risk assessment that includes:\n" ++
          "- Diagnostic questions and tests for each bias type\n" ++
          "- Evidence to collect or metrics to review\n" ++
          "- Likely impacts on stakeholders and compliance obligations\n" ++
          "- Concrete mitigation strategies (data, model, process, governance)\n" ++
          "- Residual risk and monitoring plans\n" ++
          "- Checklist for ongoing assurance.") ∧
    (∀ (ctx : String) (ts : List String) apiKey behavior st,
      ctx ≠ "" → keyFalsy apiKey = true →
      (call_tool "check_bias" [("context", .s ctx), ("bias_types", .arr ts)]
          apiKey behavior st).1
        = [Content.text (openai_key_missing_text "Bias assessment")]) := by
  refine ⟨?_, ?_, ?_⟩
  · intro scenario ks1 ks2 key h
    have hfm : (ks1 ++ key :: ks2).filterMap
          (fun k => (List.lookup k ETHICAL_FRAMEWORKS).map framework_block)
        = (ks1 ++ ks2).filterMap
          (fun k => (List.lookup k ETHICAL_FRAMEWORKS).map framework_block) := by
      simp [List.filterMap_append, List.filterMap_cons, h]
    have hctx : frameworks_context (ks1 ++ key :: ks2) = frameworks_context (ks1 ++ ks2) := by
      simp only [frameworks_context]
      rw [hfm]
    simp only [analyze_prompt, hctx]
  · intro ctx t h
    simp [check_bias_prompt, bias_blocks, bias_line, intercalate_singleton, h]
  · intro ctx ts apiKey behavior st hc h
    have hf : pyFalsy (getArg [("context", ArgValue.s ctx), ("bias_types", ArgValue.arr ts)]
        "context") = false := by
      simp [pyFalsy, getArg, List.lookup, hc]
    simp [call_tool, hf, generate_no_key apiKey "Bias assessment" behavior st h]

theorem claim_c7_amended_witness :
    analyze_prompt "s" (["utilitarian"] ++ "nope" :: []) = analyze_prompt "s" (["utilitarian"] ++ []) ∧
    check_bias_prompt "c" ["zzz"]
      = "Context for bias assessment:\n" ++ "c" ++ "\n\nBias types to evaluate:\n" ++
        ("- " ++ pyTitle "zzz" ++ " bias: " ++ "No definition available") ++
        "\n\nDeliver a structured bias risk assessment that includes:\n" ++
        "- Diagnostic questions and tests for each bias type\n" ++
        "- Evidence to collect or metrics to review\n" ++
        "- Likely impacts on stakeholders and compliance obligations\n" ++
        "- Concrete mitigation strategies (data, model, process, governance)\n" ++
        "- Residual risk and monitoring plans\n" ++
        "- Checklist for ongoing assurance." ∧
    (call_tool "check_bias" [("context", .s "c"), ("bias_types", .arr ["zzz"])] none
        (.returns none) ⟨none, 0⟩).1
      = [Content.text (openai_key_missing_text "Bias assessment")] := by
  refine ⟨?_, ?_, ?_⟩
  · exact claim_c7_amended.1 "s" ["utilitarian"] [] "nope" rfl
  · exact claim_c7_amended.2.1 "c" "zzz" rfl
  · exact claim_c7_amended.2.2 "c" ["zzz"] none (.returns none) ⟨none, 0⟩ (by decide) rfl

/-- The lookup discipline the specification describes for a frameworks key:
first the ethical-frameworks map, then the responsible-AI-frameworks map (in
that order, so a key present in both favours the ethics table), and an error
carrying the key when neither contains it. -/
def resolveFrameworkKey (key : String) : Except String Json :=
  match List.lookup key ETHICAL_FRAMEWORKS_json with
  | some v => .ok v
  | none =>
      match List.lookup key RESPONSIBLE_AI_FRAMEWORKS with
      | some v => .ok v
      | none => .error key

set_option maxRecDepth 100000 in
/-- C8 counterexample: the URI `ethicist://frameworks/responsible_ai` is of the
frameworks-prefix form and is not one of the two reserved exact URIs, and its
key is found in neither map; the claim therefore demands an error naming the
key, but `read_resource` returns the entire responsible-AI table serialized. -/
theorem claim_c8_counterexample :
    pyStartsWith "ethicist://frameworks/responsible_ai" "ethicist://frameworks/" = true ∧
    lastSegment "ethicist://frameworks/responsible_ai" = "responsible_ai" ∧
    List.lookup "responsible_ai" ETHICAL_FRAMEWORKS_json = none ∧
    List.lookup "responsible_ai" RESPONSIBLE_AI_FRAMEWORKS = none ∧
    read_resource "ethicist://frameworks/responsible_ai"
      = .ok (json_dumps (.obj RESPONSIBLE_AI_FRAMEWORKS)) :=
  ⟨by decide, by decide, rfl, rfl, rfl⟩

/-- C8 (amended): for a URI of the frameworks-prefix form that is not a
reserved exact URI, `read_resource` behaves as the two-map lookup discipline
the spec describes (ethical frameworks first, then responsible-AI frameworks,
an error naming the key when neither matches) — except for the special key
`responsible_ai`, for which the entire responsible-AI-frameworks table is
serialized and returned instead of an error. -/
theorem claim_c8_amended (uri key : String)
    (h1 : uri ≠ "ethicist://frameworks/all")
    (h2 : uri ≠ "ethicist://guidelines/ai-ethics")
    (h3 : pyStartsWith uri "ethicist://frameworks/" = true)
    (h4 : lastSegment uri = key) :
    read_resource uri =
      if key = "responsible_ai" then .ok (json_dumps (.obj RESPONSIBLE_AI_FRAMEWORKS))
      else
        match resolveFrameworkKey key with
        | .ok v => .ok (json_dumps v)
        | .error k => .error ("Unknown framework: " ++ k) := by
  simp only [read_resource, resolveFrameworkKey]
  rw [if_neg h1, if_neg h2, if_pos h3, h4]
  by_cases hra : key = "responsible_ai"
  · simp [hra]
  · rw [if_neg hra, if_neg hra]
    cases hE : List.lookup key ETHICAL_FRAMEWORKS_json <;>
      cases hR : List.lookup key RESPONSIBLE_AI_FRAMEWORKS <;> simp [hE, hR]

set_option maxRecDepth 100000 in
theorem claim_c8_witness :
    read_resource "ethicist://frameworks/virtue"
      = .ok (json_dumps (Framework.toJson
          { name := "Virtue Ethics",
            description := "Focuses on character development and moral virtues",
            key_principles := ["Cultivate good character traits",
              "Act as a virtuous person would", "Balance and moderation in all things"] })) ∧
    read_resource "ethicist://frameworks/nist_ai_rmf"
      = .ok (json_dumps
          ((List.lookup "nist_ai_rmf" RESPONSIBLE_AI_FRAMEWORKS).getD (.str ""))) := by
  constructor
  · rw [claim_c8_amended "ethicist://frameworks/virtue" "virtue"
      (by decide) (by decide) (by decide) (by decide)]
    rfl
  · rw [claim_c8_amended "ethicist://frameworks/nist_ai_rmf" "nist_ai_rmf"
      (by decide) (by decide) (by decide) (by decide)]
    rfl

theorem promptArgGet_none (arguments : PromptArgs) (k dflt : String)
    (h : promptArgLookup arguments k = none) : promptArgGet arguments k dflt = dflt := by
  cases arguments with
  | none => rfl
  | some m =>
      simp only [promptArgLookup] at h
      simp [promptArgGet, h]

theorem sandwich4 (A s D c B : String) : s.data <:+: (A ++ s ++ D ++ c ++ B).data :=
  ⟨A.data, (D ++ c ++ B).data, by simp [String.data_append]⟩

theorem sandwich4b (A s D c B : String) : c.data <:+: (A ++ s ++ D ++ c ++ B).data :=
  ⟨(A ++ s ++ D).data, B.data, by simp [String.data_append]⟩

/-- C9: `get_prompt` never fails on a missing argument: when the mapping is
`None` or lacks the key, the fixed placeholder phrase is substituted in that
argument's position, the message text contains the placeholder, and the result
is returned without error. -/
theorem claim_c9 :
    (∀ arguments : PromptArgs, promptArgLookup arguments "situation" = none →
      get_prompt "ethical_decision_making" arguments
        = .ok ⟨"Structured ethical decision-making process",
            [⟨"user", ethical_decision_making_text "a difficult choice"⟩]⟩ ∧
      "a difficult choice".data <:+: (ethical_decision_making_text "a difficult choice").data) ∧
    (∀ arguments : PromptArgs, promptArgLookup arguments "decision" = none →
      get_prompt "stakeholder_analysis" arguments
        = .ok ⟨"Comprehensive stakeholder analysis",
            [⟨"user", stakeholder_analysis_text "this decision"⟩]⟩ ∧
      "this decision".data <:+: (stakeholder_analysis_text "this decision").data) ∧
    (∀ arguments : PromptArgs, promptArgLookup arguments "system_description" = none →
      get_prompt "ai_risk_assessment" arguments
        = .ok ⟨"AI ethical risk assessment",
            [⟨"user", ai_risk_assessment_text "an AI system"
                (promptArgGet arguments "deployment_context" "various contexts")⟩]⟩ ∧
      (∀ c, "an AI system".data <:+: (ai_risk_assessment_text "an AI system" c).data)) ∧
    (∀ arguments : PromptArgs, promptArgLookup arguments "deployment_context" = none →
      get_prompt "ai_risk_assessment" arguments
        = .ok ⟨"AI ethical risk assessment",
            [⟨"user", ai_risk_assessment_text
                (promptArgGet arguments "system_description" "an AI system")
                "various contexts"⟩]⟩ ∧
      (∀ s, "various contexts".data <:+: (ai_risk_assessment_text s "various contexts").data)) := by
  refine ⟨?_, ?_, ?_, ?_⟩
  · intro arguments h
    refine ⟨by simp [get_prompt, promptArgGet_none arguments "situation" "a difficult choice" h], ?_⟩
    exact substring_sandwich _ _ _
  · intro arguments h
    refine ⟨by simp [get_prompt, promptArgGet_none arguments "decision" "this decision" h], ?_⟩
    exact substring_sandwich _ _ _
  · intro arguments h
    refine ⟨by simp [get_prompt,
      promptArgGet_none arguments "system_description" "an AI system" h], ?_⟩
    intro c
    exact sandwich4 _ _ _ c _
  · intro arguments h
    refine ⟨by simp [get_prompt,
      promptArgGet_none arguments "deployment_context" "various contexts" h], ?_⟩
    intro s
    exact sandwich4b _ s _ _ _
theorem claim_c9_witness :
    get_prompt "ethical_decision_making" none
      = .ok ⟨"Structured ethical decision-making process",
          [⟨"user", ethical_decision_making_text "a difficult choice"⟩]⟩ ∧
    get_prompt "stakeholder_analysis" none
      = .ok ⟨"Comprehensive stakeholder analysis",
          [⟨"user", stakeholder_analysis_text "this decision"⟩]⟩ ∧
    get_prompt "ai_risk_assessment" (some [("deployment_context", "hospitals")])
      = .ok ⟨"AI ethical risk assessment",
          [⟨"user", ai_risk_assessment_text "an AI system"
              (promptArgGet (some [("deployment_context", "hospitals")])
                "deployment_context" "various contexts")⟩]⟩ ∧
    get_prompt "ai_risk_assessment" none
      = .ok ⟨"AI ethical risk assessment",
          [⟨"user", ai_risk_assessment_text
              (promptArgGet none "system_description" "an AI system") "various contexts"⟩]⟩ := by
  refine ⟨?_, ?_, ?_, ?_⟩
  · exact (claim_c9.1 none rfl).1
  · exact (claim_c9.2.1 none rfl).1
  · exact (claim_c9.2.2.1 (some [("deployment_context", "hospitals")]) rfl).1
  · exact (claim_c9.2.2.2 none rfl).1
